import Mathlib

/-!
# Verification of the chess rules engine (src/lib.rs)

A shallow embedding of the chess engine: the board is modelled as an
association list from coordinates to pieces (mirroring the `HashMap` of the
source, whose keys are unique), machine integers become `Nat`/`Int`, the
unbounded ray-walking loops become fuel-bounded recursion (fuel 9 suffices on
the 8x8 board, since stepping 9 times in any nonzero direction always leaves
the board), and the panicking paths of the source (`unwrap` on a missing
pawn-capture source file) become an explicit `panicked` outcome.
-/

set_option maxRecDepth 4096

inductive Color where
  | White
  | Black
deriving DecidableEq, Repr

inductive PieceType where
  | King
  | Queen
  | Rook
  | Bishop
  | Knight
  | Pawn
deriving DecidableEq, Repr

inductive GameState where
  | InProgress
  | Checkmate (c : Color)
  | Check (c : Color)
  | Stalemate
deriving DecidableEq, Repr

structure Piece where
  piece_type : PieceType
  color : Color
deriving DecidableEq, Repr

/-- Coordinates `(x, y)`, both axes ranging over `1..=8` on the board. -/
abbrev Coords := Nat × Nat

/-- The board: the source's `HashMap<(usize, usize), Piece>` modelled as an
association list with unique keys. -/
abbrev Board := List (Coords × Piece)

inductive Special where
  | Castle
  | LongCastle
  | Check
  | Checkmate
  | EnPassant
  | Promotion
deriving DecidableEq, Repr

/-- The move descriptor (`Command` in the source). The source field `from`
is named `from'` here (and `to` is `to'`) because both are Lean keywords. -/
structure Command where
  special : Option Special
  piece : PieceType
  from' : Option Nat × Option Nat
  to' : Coords
  takes : Bool
deriving DecidableEq, Repr

inductive ChessError where
  | InvalidMove
deriving DecidableEq, Repr

structure Game where
  turn : Color
  pieces : Board
  state : GameState
deriving DecidableEq, Repr

def Color.opposite : Color → Color
  | .White => .Black
  | .Black => .White

/-- `usize::abs_diff`. -/
def abs_diff (a b : Nat) : Nat := max a b - min a b

/-- `usize::checked_sub`. -/
def checked_sub (a b : Nat) : Option Nat := if a < b then none else some (a - b)

/-- `Ordering as isize`: the comparison direction used by `can_take` and
`coords_between` (`Less = -1`, `Equal = 0`, `Greater = 1`). -/
def cmp_dir (a b : Nat) : Int := if a < b then -1 else if a = b then 0 else 1

/-- `next_coords`: step `origin` by `direction * step`; `none` when the
result leaves the board. -/
def next_coords (origin : Coords) (direction : Int × Int) (step : Int) :
    Option Coords :=
  let x : Int := (origin.1 : Int) + direction.1 * step
  let y : Int := (origin.2 : Int) + direction.2 * step
  if x < 1 ∨ x > 8 ∨ y < 1 ∨ y > 8 then none else some (x.toNat, y.toNat)

/-- `pawn_move`: the pawn's forward target row, `none` when off the board. -/
def pawn_move (y_coord : Nat) (step : Int) (color : Color) : Option Nat :=
  let direction : Int := if color = .White then 1 else -1
  let new_y : Int := (y_coord : Int) + step * direction
  if new_y < 1 ∨ new_y > 8 then none else some new_y.toNat

/-- `HashMap::get` on the association-list board. -/
def board_get (b : Board) (c : Coords) : Option Piece :=
  match b.find? (fun kv => kv.1 = c) with
  | some kv => some kv.2
  | none => none

/-- `HashMap::remove` (the removed value is recovered via `board_get`). -/
def board_remove (b : Board) (c : Coords) : Board :=
  b.filter (fun kv => kv.1 ≠ c)

/-- `HashMap::insert`, keeping keys unique. -/
def board_insert (c : Coords) (p : Piece) (b : Board) : Board :=
  (c, p) :: board_remove b c

/-- `coords_match_from`: the disambiguation filter of `play`. -/
def coords_match_from (coords : Coords) (fr : Option Nat × Option Nat) : Bool :=
  match fr with
  | (some x, none) => coords.1 == x
  | (none, some y) => coords.2 == y
  | (some x, some y) => coords.1 == x && coords.2 == y
  | (none, none) => true

/-- `Piece::get_direction_vectors` (the source panics on non-sliders; that
case is never reached and is modelled as the empty list). -/
def Piece.get_direction_vectors (p : Piece) : List (Int × Int) :=
  match p.piece_type with
  | .Bishop => [(1, 1), (1, -1), (-1, 1), (-1, -1)]
  | .Rook => [(1, 0), (-1, 0), (0, 1), (0, -1)]
  | .Queen => [(1, 1), (1, -1), (-1, 1), (-1, -1), (1, 0), (-1, 0), (0, 1), (0, -1)]
  | _ => []

/-- `Piece::get_candidate_moves` (king/knight offset candidates; the source
panics on other piece types; that case is never reached and is modelled as
the empty list). -/
def Piece.get_candidate_moves (p : Piece) (pc : Coords) :
    List (Option Nat × Option Nat) :=
  match p.piece_type with
  | .Knight =>
      [(some (pc.1 + 1), some (pc.2 + 2)), (some (pc.1 + 1), checked_sub pc.2 2),
       (checked_sub pc.1 1, some (pc.2 + 2)), (checked_sub pc.1 1, checked_sub pc.2 2),
       (some (pc.1 + 2), some (pc.2 + 1)), (some (pc.1 + 2), checked_sub pc.2 1),
       (checked_sub pc.1 2, some (pc.2 + 1)), (checked_sub pc.1 2, checked_sub pc.2 1)]
  | .King =>
      [(some (pc.1 + 1), some (pc.2 + 1)), (some (pc.1 + 1), checked_sub pc.2 1),
       (checked_sub pc.1 1, some (pc.2 + 1)), (checked_sub pc.1 1, checked_sub pc.2 1),
       (some (pc.1 + 1), some pc.2), (checked_sub pc.1 1, some pc.2),
       (some pc.1, some (pc.2 + 1)), (some pc.1, checked_sub pc.2 1)]
  | _ => []

/-- Pawn diagonal-capture generation (the inner capture loop of the pawn arm
of `Piece::get_possible_moves`). -/
def pawn_captures (c : Color) (x ny : Nat) (fr : Option Nat × Option Nat)
    (b : Board) : List Command :=
  (([checked_sub x 1, some (x + 1)].filterMap (fun o =>
      match o with
      | some xc => if 0 < xc ∧ xc ≤ 8 then some ((xc, ny) : Coords) else none
      | none => none)).filterMap (fun cap =>
      match board_get b cap with
      | some p => if p.color ≠ c then some (⟨none, .Pawn, fr, cap, true⟩ : Command) else none
      | none => none))

/-- One `step` iteration of the pawn arm of `Piece::get_possible_moves`. -/
def pawn_step_moves (c : Color) (x y : Nat) (fr : Option Nat × Option Nat)
    (b : Board) (step : Int) : List Command :=
  match pawn_move y step c with
  | none => []
  | some new_y =>
      (if (board_get b (x, new_y)).isNone then
        [(⟨none, .Pawn, fr, (x, new_y), false⟩ : Command)]
      else []) ++
      (if step = 1 then pawn_captures c x new_y fr b else [])

/-- One candidate of the king/knight arm of `Piece::get_possible_moves`. -/
def candidate_step (pt : PieceType) (c : Color) (fr : Option Nat × Option Nat)
    (b : Board) (oc : Option Nat × Option Nat) : List Command :=
  match oc with
  | (some x, some y) =>
      if x < 1 ∨ x > 8 ∨ y < 1 ∨ y > 8 then []
      else
        match board_get b (x, y) with
        | some q => if q.color ≠ c then [(⟨none, pt, fr, (x, y), true⟩ : Command)] else []
        | none => [(⟨none, pt, fr, (x, y), false⟩ : Command)]
  | _ => []

/-- The ray walk of the slider arm of `Piece::get_possible_moves`. Faithful
to the source: an enemy occupant is recorded as a capture and the walk
KEEPS GOING past it (the source has no `break` there); only an own piece or
the board edge stops the walk. Fuel-bounded recursion stands in for the
source's unbounded loop; fuel 9 from step 1 covers every step the loop can
reach before `next_coords` returns `none`. -/
def walk_ray (pt : PieceType) (c : Color) (fr : Option Nat × Option Nat)
    (origin : Coords) (b : Board) (dir : Int × Int) :
    Nat → Int → List Command
  | 0, _ => []
  | fuel + 1, step =>
      match next_coords origin dir step with
      | none => []
      | some nc =>
          match board_get b nc with
          | some p =>
              if p.color = c then []
              else (⟨none, pt, fr, nc, true⟩ : Command) ::
                walk_ray pt c fr origin b dir fuel (step + 1)
          | none =>
              (⟨none, pt, fr, nc, false⟩ : Command) ::
                walk_ray pt c fr origin b dir fuel (step + 1)

/-- `Piece::get_possible_moves`: pseudo-legal destinations of a piece. -/
def Piece.get_possible_moves (p : Piece) (pc : Coords) (b : Board) :
    List Command :=
  let fr : Option Nat × Option Nat := (some pc.1, some pc.2)
  match p.piece_type with
  | .Pawn =>
      let pawn_row : Nat := match p.color with
        | .White => 2
        | .Black => 7
      let steps : List Int := if pc.2 = pawn_row then [1, 2] else [1]
      steps.flatMap (pawn_step_moves p.color pc.1 pc.2 fr b)
  | .King | .Knight =>
      (p.get_candidate_moves pc).flatMap (candidate_step p.piece_type p.color fr b)
  | _ =>
      p.get_direction_vectors.flatMap (fun dir =>
        walk_ray p.piece_type p.color fr pc b dir 9 1)

/-- The blocked-line scan of `Piece::can_take`: walk from `origin` toward
`tc`; reaching `tc` first means the take is possible, any earlier occupant
blocks it. -/
def can_take_ray (b : Board) (tc : Coords) (origin : Coords) (dir : Int × Int) :
    Nat → Int → Bool
  | 0, _ => false
  | fuel + 1, i =>
      match next_coords origin dir i with
      | none => false
      | some cds =>
          if cds = tc then true
          else if (board_get b cds).isSome then false
          else can_take_ray b tc origin dir fuel (i + 1)

/-- `Piece::can_take`: capture-reachability, used by check detection. -/
def Piece.can_take (p : Piece) (pc tc : Coords) (b : Board) : Bool :=
  match p.piece_type with
  | .Pawn =>
      abs_diff tc.1 pc.1 = 1 ∧
        tc.2 = (if p.color = .White then pc.2 + 1 else pc.2 - 1)
  | .Knight =>
      (abs_diff tc.1 pc.1 = 2 ∧ abs_diff tc.2 pc.2 = 1) ∨
        (abs_diff tc.1 pc.1 = 1 ∧ abs_diff tc.2 pc.2 = 2)
  | .King =>
      (abs_diff tc.1 pc.1 = 1 ∧ abs_diff tc.2 pc.2 = 0) ∨
        (abs_diff tc.1 pc.1 = 0 ∧ abs_diff tc.2 pc.2 = 1) ∨
        (abs_diff tc.1 pc.1 = 1 ∧ abs_diff tc.2 pc.2 = 1)
  | .Queen =>
      if tc.1 ≠ pc.1 ∧ tc.2 ≠ pc.2 ∧ abs_diff tc.1 pc.1 ≠ abs_diff tc.2 pc.2 then
        false
      else
        can_take_ray b tc pc (cmp_dir tc.1 pc.1, cmp_dir tc.2 pc.2) 9 1
  | .Rook =>
      if tc.1 ≠ pc.1 ∧ tc.2 ≠ pc.2 then false
      else
        can_take_ray b tc pc (cmp_dir tc.1 pc.1, cmp_dir tc.2 pc.2) 9 1
  | .Bishop =>
      if abs_diff tc.1 pc.1 ≠ abs_diff tc.2 pc.2 then false
      else
        can_take_ray b tc pc (cmp_dir tc.1 pc.1, cmp_dir tc.2 pc.2) 9 1

/-- `Game::is_check` on a bare board: find the king of `color_in_check`
(not in check when absent), then test whether any opposing piece can take
its square. -/
def is_check_b (pieces : Board) (color_in_check : Color) : Bool :=
  match pieces.find? (fun kv =>
      kv.2.piece_type = PieceType.King ∧ kv.2.color = color_in_check) with
  | none => false
  | some kingkv =>
      pieces.any (fun kv =>
        kv.2.color = color_in_check.opposite ∧
          kv.2.can_take kv.1 kingkv.1 pieces)

/-- `Game::is_check`. -/
def Game.is_check (g : Game) (color_in_check : Color) : Bool :=
  is_check_b g.pieces color_in_check

/-- `Game::get_all_possible_moves`: the union of the pseudo-legal moves of
that color's pieces (the source has a todo comment noting the missing
own-king-in-check filter). -/
def Game.get_all_possible_moves (g : Game) (color : Color) : List Command :=
  (g.pieces.filter (fun kv => kv.2.color = color)).flatMap
    (fun kv => kv.2.get_possible_moves kv.1 g.pieces)

/-- `notation_to_coords` (two-character coordinate parsing; the source reads
the first two characters and rejects out-of-range values). -/
def chars_to_coords (l : List Char) : Option Coords :=
  match l with
  | c0 :: c1 :: _ =>
      let x := c0.toNat - 'a'.toNat + 1
      let y := c1.toNat - '1'.toNat + 1
      if x > 8 ∨ y > 8 then none else some (x, y)
  | _ => none

/-- `coords_to_notation` (the inverse rendering of a square). -/
def coords_to_chars (coords : Coords) : List Char :=
  [Char.ofNat (coords.1 + 'a'.toNat - 1), Char.ofNat (coords.2 + '1'.toNat - 1)]

/-- `letter_to_column_index` ('a' ↦ 1, ..., 'h' ↦ 8; only called on
characters the pattern already restricted to `a..h`). -/
def letter_to_column_index (letter : Char) : Nat :=
  letter.toNat - 'a'.toNat + 1

def is_piece_char (c : Char) : Bool := c ∈ ['N', 'B', 'R', 'Q', 'K']

def is_file_char (c : Char) : Bool := 'a' ≤ c ∧ c ≤ 'h'

def is_rank_char (c : Char) : Bool := '1' ≤ c ∧ c ≤ '8'

/-- The capture groups of the source's `NOTATION_PATTERN` regex. -/
structure RegexCaptures where
  piece : Option Char
  from_col : Option Char
  from_row : Option Char
  takes : Bool
  toSq : Char × Char
  promotion : Option Char
  check : Option Char
deriving DecidableEq, Repr

/-- Leftmost-first alternative selection: the first candidate on which the
continuation succeeds wins, implementing the capture semantics of the
source's regex engine. -/
def first_some {α β : Type} : List α → (α → Option β) → Option β
  | [], _ => none
  | a :: rest, f =>
      match f a with
      | some b => some b
      | none => first_some rest f

/-- An optional single-character group: matching the character is preferred
over skipping the group (greedy, with backtracking via `first_some`). -/
def opt_group (l : List Char) (p : Char → Bool) : List (Option Char × List Char) :=
  match l with
  | c :: rest => if p c then [(some c, rest), (none, l)] else [(none, l)]
  | [] => [(none, [])]

/-- The optional `x` capture marker group. -/
def takes_group (l : List Char) : List (Bool × List Char) :=
  match l with
  | c :: rest => if c = 'x' then [(true, rest), (false, l)] else [(false, l)]
  | [] => [(false, [])]

/-- The anchored tail of the pattern: the destination square, an optional
`=P` promotion suffix, an optional `+`/`#` suffix, then end of input. -/
def match_tail (l : List Char) :
    Option ((Char × Char) × Option Char × Option Char) :=
  match l with
  | f :: r :: rest =>
      if is_file_char f ∧ is_rank_char r then
        match rest with
        | [] => some ((f, r), none, none)
        | [c] => if c = '+' ∨ c = '#' then some ((f, r), none, some c) else none
        | ['=', p] => if is_piece_char p then some ((f, r), some p, none) else none
        | ['=', p, c] =>
            if is_piece_char p ∧ (c = '+' ∨ c = '#') then
              some ((f, r), some p, some c)
            else none
        | _ => none
      else none
  | _ => none

/-- Matching the main alternative of `NOTATION_PATTERN` against the whole
input, with leftmost-first (greedy, backtracking) group assignment. -/
def regex_captures (l : List Char) : Option RegexCaptures :=
  first_some (opt_group l is_piece_char) (fun pc =>
    first_some (opt_group pc.2 is_file_char) (fun fc =>
      first_some (opt_group fc.2 is_rank_char) (fun fr =>
        first_some (takes_group fr.2) (fun tk =>
          match match_tail tk.2 with
          | some (toSq, promo, chk) =>
              some ⟨pc.1, fc.1, fr.1, tk.1, toSq, promo, chk⟩
          | none => none))))

/-- The piece-letter decoding of `Command::parse`. -/
def piece_of_char (c : Char) : Option PieceType :=
  if c = 'N' then some .Knight
  else if c = 'B' then some .Bishop
  else if c = 'R' then some .Rook
  else if c = 'Q' then some .Queen
  else if c = 'K' then some .King
  else none

/-- The descriptor-building tail of `Command::parse`, applied to the regex
captures: decode the piece letter (absent means pawn), decode the
disambiguation, reject disambiguation on pieces other than knight/rook/pawn
and on a non-capturing pawn, and decode the destination square. -/
def build_command (caps : RegexCaptures) : Option Command :=
  (match caps.piece with
    | some c => piece_of_char c
    | none => some PieceType.Pawn).bind (fun (piece : PieceType) =>
  let from_col : Option Nat := caps.from_col.map letter_to_column_index
  let from_row : Option Nat := caps.from_row.map (fun (c : Char) => c.toNat - '1'.toNat)
  let takes : Bool := caps.takes
  if (from_row.isSome ∨ from_col.isSome) ∧
      ((piece ≠ PieceType.Knight ∧ piece ≠ PieceType.Rook ∧
          piece ≠ PieceType.Pawn) ∨
        (takes = false ∧ piece = PieceType.Pawn)) then
    none
  else
    let check : Option Special :=
      match caps.check with
      | some c => if c = '+' then some .Check
          else if c = '#' then some .Checkmate else none
      | none => none
    (chars_to_coords [caps.toSq.1, caps.toSq.2]).map (fun toCoords =>
      ⟨check, piece, (from_col, from_row), toCoords, takes⟩))

/-- `Command::parse`. Inputs shorter than two characters fail; the literal
castle strings are handled before the general pattern; everything else must
match the main alternative of the pattern in full. -/
def Command.parse (l : List Char) : Option Command :=
  if l.length < 2 then none
  else if l = "O-O".toList then
    some ⟨some .Castle, .King, (none, none), (0, 0), false⟩
  else if l = "O-O-O".toList then
    some ⟨some .LongCastle, .King, (none, none), (0, 0), false⟩
  else
    match regex_captures l with
    | some caps => build_command caps
    | none => none

/-- The outcome of `Game::play`, carrying the game value visible at the
moment of return: `ok` on success, `err` on an early `return Err(..)`, and
`panicked` where the source would panic (the `unwrap` on a pawn capture
with no source file, or a `usize` subtraction underflow). -/
inductive PlayResult where
  | ok (g : Game)
  | err (e : ChessError) (g : Game)
  | panicked (g : Game)
deriving DecidableEq, Repr

/-- The castle arm of `play` (steps verifying home squares occupied,
destination squares empty, and the in-between columns empty), producing the
`(remove, insert)` coordinate pairs on success. Note the source checks the
home squares only for occupancy: the kind and color of the occupants are
never inspected. -/
def castle_phase (color : Color) (pieces : Board) (piece : PieceType)
    (long : Bool) : Except ChessError (List (Coords × Coords)) :=
  if piece ≠ .King then .error .InvalidMove
  else
    let rook_col : Nat := if long then 1 else 8
    let home_row : Nat := if color = .White then 1 else 8
    let from_king : Coords := (5, home_row)
    let from_rook : Coords := (rook_col, home_row)
    if (board_get pieces from_king).isNone ∨ (board_get pieces from_rook).isNone then
      .error .InvalidMove
    else
      let to_king : Coords := if long then (3, home_row) else (7, home_row)
      let to_rook : Coords := if long then (4, home_row) else (6, home_row)
      if (board_get pieces to_king).isSome ∨ (board_get pieces to_rook).isSome then
        .error .InvalidMove
      else
        let range : List Nat := if long then [2, 3, 4] else [6, 7]
        if range.any (fun col => (board_get pieces (col, home_row)).isSome) then
          .error .InvalidMove
        else
          .ok [(from_king, to_king), (from_rook, to_rook)]

/-- The candidate geometry computed by the per-piece dispatch of `play`:
either a list of direction vectors (sliders), a list of candidate origin
squares, nothing (a castling king), an invalid-move rejection (pawn capture
from a non-adjacent file), or a panic (pawn capture descriptor with no
source file, or a row-arithmetic underflow). -/
inductive SearchSpace where
  | dirs (l : List (Int × Int))
  | cands (l : List Coords)
  | nothing
  | invalid
  | panicked
deriving DecidableEq, Repr

/-- The White pawn source row is computed with `usize` subtraction in the
source (panics on underflow in a debug build); Black adds. -/
def pawn_diff (color : Color) (curr d : Nat) : Option Nat :=
  match color with
  | .White => checked_sub curr d
  | .Black => some (curr + d)

/-- The knight candidate origins computed inside `play` for a destination. -/
def knight_origins (t : Coords) : List Coords :=
  [(some (t.1 + 1), some (t.2 + 2)), (some (t.1 + 1), checked_sub t.2 2),
   (checked_sub t.1 1, some (t.2 + 2)), (checked_sub t.1 1, checked_sub t.2 2),
   (some (t.1 + 2), some (t.2 + 1)), (some (t.1 + 2), checked_sub t.2 1),
   (checked_sub t.1 2, some (t.2 + 1)), (checked_sub t.1 2, checked_sub t.2 1)].filterMap
    (fun oc =>
      match oc with
      | (some x, some y) => if x ≤ 8 ∧ y ≤ 8 ∧ 0 < x ∧ 0 < y then some ((x, y) : Coords) else none
      | _ => none)

/-- The king candidate origins computed inside `play` for a destination. -/
def king_origins (t : Coords) : List Coords :=
  [(some (t.1 + 1), some (t.2 + 1)), (some (t.1 + 1), checked_sub t.2 1),
   (checked_sub t.1 1, some (t.2 + 1)), (checked_sub t.1 1, checked_sub t.2 1),
   (some (t.1 + 1), some t.2), (checked_sub t.1 1, some t.2),
   (some t.1, some (t.2 + 1)), (some t.1, checked_sub t.2 1)].filterMap
    (fun oc =>
      match oc with
      | (some x, some y) => if x ≤ 8 ∧ y ≤ 8 ∧ 0 < x ∧ 0 < y then some ((x, y) : Coords) else none
      | _ => none)

/-- The per-piece dispatch of `play`, mirroring the `match input.piece`
block of the source. -/
def dispatch (color : Color) (cmd : Command) (is_castle : Bool) : SearchSpace :=
  match cmd.piece with
  | .Pawn =>
      if cmd.takes then
        match cmd.from'.1 with
        | none => .panicked
        | some from_col =>
            if abs_diff from_col cmd.to'.1 ≠ 1 then .invalid
            else
              match pawn_diff color cmd.to'.2 1 with
              | none => .panicked
              | some sy => .cands [(from_col, sy)]
      else
        match pawn_diff color cmd.to'.2 1 with
        | none => .panicked
        | some sy =>
            if (color = .White ∧ cmd.to'.2 = 4) ∨ (color = .Black ∧ cmd.to'.2 = 5) then
              match pawn_diff color cmd.to'.2 2 with
              | none => .panicked
              | some sy2 => .cands [(cmd.to'.1, sy), (cmd.to'.1, sy2)]
            else .cands [(cmd.to'.1, sy)]
  | .Knight => .cands (knight_origins cmd.to')
  | .Rook => .dirs [(1, 0), (-1, 0), (0, 1), (0, -1)]
  | .Bishop => .dirs [(1, 1), (1, -1), (-1, 1), (-1, -1)]
  | .King => if is_castle then .nothing else .cands (king_origins cmd.to')
  | .Queen => .dirs [(1, 1), (1, -1), (-1, 1), (-1, -1), (1, 0), (-1, 0), (0, 1), (0, -1)]

/-- The inner loop of the sliding-piece origin scan of `play`: walk outward
from the destination along `dir`; the first occupied square settles the
direction — it is the origin if it matches the requested piece, color and
disambiguation, and otherwise the direction is abandoned. -/
def scan_dir (b : Board) (pt : PieceType) (c : Color)
    (fr : Option Nat × Option Nat) (t : Coords) (dir : Int × Int) :
    Nat → Int → Option Coords
  | 0, _ => none
  | fuel + 1, i =>
      match next_coords t dir i with
      | none => none
      | some coords =>
          match board_get b coords with
          | some p =>
              if p.piece_type = pt ∧ p.color = c ∧ coords_match_from coords fr then
                some coords
              else none
          | none => scan_dir b pt c fr t dir fuel (i + 1)

/-- The outer loop of the sliding-piece origin scan of `play`: directions
are tried in order; the first direction yielding a match wins. -/
def search_dirs (b : Board) (pt : PieceType) (c : Color)
    (fr : Option Nat × Option Nat) (t : Coords) :
    List (Int × Int) → Option Coords
  | [] => none
  | dir :: rest =>
      match scan_dir b pt c fr t dir 9 1 with
      | some coords => some coords
      | none => search_dirs b pt c fr t rest

/-- The candidate-square scan of `play` for pawns, knights and kings: the
first candidate square holding a matching piece wins. -/
def search_cands (b : Board) (pt : PieceType) (c : Color)
    (fr : Option Nat × Option Nat) : List Coords → Option Coords
  | [] => none
  | cd :: rest =>
      match board_get b cd with
      | some p =>
          if p.color = c ∧ p.piece_type = pt ∧ coords_match_from cd fr then some cd
          else search_cands b pt c fr rest
      | none => search_cands b pt c fr rest

/-- The outcome of the validation phases of `play` (everything before the
commit loop): the `(remove, insert)` pairs on success. -/
inductive FindOutcome where
  | found (pairs : List (Coords × Coords))
  | invalid
  | panicked
deriving DecidableEq, Repr

/-- The validation phases of `play` in source order: the castle arm, the
capture/occupancy consistency check (castling exempt), the per-piece
dispatch and the origin search, ending in the `!piece_found && !is_castle`
rejection. No state is mutated here (the source only pushes to the local
`to_remove`/`to_insert` vectors). -/
def Game.find_move (g : Game) (cmd : Command) : FindOutcome :=
  let color := g.turn
  let castled : Except ChessError (Bool × List (Coords × Coords)) :=
    match cmd.special with
    | some .Castle =>
        match castle_phase color g.pieces cmd.piece false with
        | .ok pairs => .ok (true, pairs)
        | .error e => .error e
    | some .LongCastle =>
        match castle_phase color g.pieces cmd.piece true with
        | .ok pairs => .ok (true, pairs)
        | .error e => .error e
    | _ => .ok (false, [])
  match castled with
  | .error _ => .invalid
  | .ok (is_castle, castle_pairs) =>
      let occupancy_ok : Bool :=
        if is_castle then true
        else
          match board_get g.pieces cmd.to' with
          | some _ => cmd.takes
          | none => !cmd.takes
      if !occupancy_ok then .invalid
      else
        match dispatch color cmd is_castle with
        | .invalid => .invalid
        | .panicked => .panicked
        | .nothing =>
            if is_castle then .found castle_pairs else .invalid
        | .dirs dirs =>
            match search_dirs g.pieces cmd.piece color cmd.from' cmd.to' dirs with
            | some coords => .found (castle_pairs ++ [(coords, cmd.to')])
            | none => if is_castle then .found castle_pairs else .invalid
        | .cands cands =>
            match search_cands g.pieces cmd.piece color cmd.from' cands with
            | some coords => .found (castle_pairs ++ [(coords, cmd.to')])
            | none => if is_castle then .found castle_pairs else .invalid

/-- The commit loop of `play`: for each `(from, to)` pair, remove the piece
at `from` and insert it at `to` (`none` models the source's `unwrap` on a
missing piece, which is unreachable on the pairs `find_move` produces). -/
def commit_pairs : List (Coords × Coords) → Board → Option Board
  | [], b => some b
  | (f, t) :: rest, b =>
      match board_get b f with
      | none => none
      | some p => commit_pairs rest (board_insert t p (board_remove b f))

/-- `Game::play`: validate (castle arm, occupancy consistency, origin
search), commit the collected pairs, set `Check(other_color)` when the
opponent is now in check (the state is otherwise left unchanged), and flip
the turn. -/
def Game.play (g : Game) (cmd : Command) : PlayResult :=
  match g.find_move cmd with
  | .invalid => .err .InvalidMove g
  | .panicked => .panicked g
  | .found pairs =>
      match commit_pairs pairs g.pieces with
      | none => .panicked g
      | some pieces' =>
          let other_color := g.turn.opposite
          let state' : GameState :=
            if is_check_b pieces' other_color then .Check other_color else g.state
          .ok ⟨other_color, pieces', state'⟩

/-- `Game::new`: the standard opening position, White to move. -/
def Game.new : Game :=
  { turn := .White
    state := .InProgress
    pieces :=
      [((1, 1), ⟨.Rook, .White⟩), ((2, 1), ⟨.Knight, .White⟩),
       ((3, 1), ⟨.Bishop, .White⟩), ((4, 1), ⟨.Queen, .White⟩),
       ((5, 1), ⟨.King, .White⟩), ((6, 1), ⟨.Bishop, .White⟩),
       ((7, 1), ⟨.Knight, .White⟩), ((8, 1), ⟨.Rook, .White⟩),
       ((1, 2), ⟨.Pawn, .White⟩), ((2, 2), ⟨.Pawn, .White⟩),
       ((3, 2), ⟨.Pawn, .White⟩), ((4, 2), ⟨.Pawn, .White⟩),
       ((5, 2), ⟨.Pawn, .White⟩), ((6, 2), ⟨.Pawn, .White⟩),
       ((7, 2), ⟨.Pawn, .White⟩), ((8, 2), ⟨.Pawn, .White⟩),
       ((1, 8), ⟨.Rook, .Black⟩), ((2, 8), ⟨.Knight, .Black⟩),
       ((3, 8), ⟨.Bishop, .Black⟩), ((4, 8), ⟨.Queen, .Black⟩),
       ((5, 8), ⟨.King, .Black⟩), ((6, 8), ⟨.Bishop, .Black⟩),
       ((7, 8), ⟨.Knight, .Black⟩), ((8, 8), ⟨.Rook, .Black⟩),
       ((1, 7), ⟨.Pawn, .Black⟩), ((2, 7), ⟨.Pawn, .Black⟩),
       ((3, 7), ⟨.Pawn, .Black⟩), ((4, 7), ⟨.Pawn, .Black⟩),
       ((5, 7), ⟨.Pawn, .Black⟩), ((6, 7), ⟨.Pawn, .Black⟩),
       ((7, 7), ⟨.Pawn, .Black⟩), ((8, 7), ⟨.Pawn, .Black⟩)] }

/-- C1's position: White to move, king e1 shielded by the rook e2 against
the black rook e8, black king h8. -/
def c1_pos : Game :=
  ⟨.White,
   [((5, 1), ⟨.King, .White⟩), ((5, 2), ⟨.Rook, .White⟩),
    ((5, 8), ⟨.Rook, .Black⟩), ((8, 8), ⟨.King, .Black⟩)], .InProgress⟩

/-- C1's move: the shielding rook moves away (`Ra2`), exposing the white
king to the black rook. -/
def c1_cmd : Command := ⟨none, .Rook, (none, none), (1, 2), false⟩

/-- The board after C1's move is committed. -/
def c1_pieces : Board :=
  [((1, 2), ⟨.Rook, .White⟩), ((5, 1), ⟨.King, .White⟩),
   ((5, 8), ⟨.Rook, .Black⟩), ((8, 8), ⟨.King, .Black⟩)]

/-- C2's starting position: White king a1, White rook h2, Black king e8. -/
def c2_g0 : Game :=
  ⟨.White,
   [((1, 1), ⟨.King, .White⟩), ((8, 2), ⟨.Rook, .White⟩),
    ((5, 8), ⟨.King, .Black⟩)], .InProgress⟩

/-- C2's first move: rook to h8, delivering check along the eighth rank. -/
def c2_c1 : Command := ⟨none, .Rook, (none, none), (8, 8), false⟩

/-- The game after C2's first move: Black to move, in check. -/
def c2_g1 : Game :=
  ⟨.Black,
   [((8, 8), ⟨.Rook, .White⟩), ((1, 1), ⟨.King, .White⟩),
    ((5, 8), ⟨.King, .Black⟩)], .Check .Black⟩

/-- C2's second move: the black king steps out of check to d7. -/
def c2_c2 : Command := ⟨none, .King, (none, none), (4, 7), false⟩

/-- The game after C2's second move: no side is in check, yet the state is
still the stale `Check(Black)`. -/
def c2_g2 : Game :=
  ⟨.White,
   [((4, 7), ⟨.King, .Black⟩), ((8, 8), ⟨.Rook, .White⟩),
    ((1, 1), ⟨.King, .White⟩)], .Check .Black⟩

/-- C3's position: White king a1, White rook a2 pinned by the black rook
a8. -/
def c3_pos : Game :=
  ⟨.White,
   [((1, 1), ⟨.King, .White⟩), ((1, 2), ⟨.Rook, .White⟩),
    ((1, 8), ⟨.Rook, .Black⟩)], .InProgress⟩

/-- C3's move: the pinned rook steps off the file to b2, exposing the white
king. -/
def c3_cmd : Command := ⟨none, .Rook, (some 1, some 2), (2, 2), false⟩

/-- C4's board: a White rook on a1 and a black pawn on a3, nothing else. -/
def c4_board : Board := [((1, 1), ⟨.Rook, .White⟩), ((1, 3), ⟨.Pawn, .Black⟩)]

/-- C5's position: White to move, but the king-side home squares e1 and h1
are occupied by BLACK PAWNS; everything else is empty. -/
def c5_pos : Game :=
  ⟨.White, [((5, 1), ⟨.Pawn, .Black⟩), ((8, 1), ⟨.Pawn, .Black⟩)], .InProgress⟩

/-- The king-side castle descriptor (`O-O`). -/
def c5_cmd : Command := ⟨some .Castle, .King, (none, none), (0, 0), false⟩

/-- The position for C5's witness: a legitimate king-side castle (White
king e1, White rook h1, nothing between them). -/
def c5_castle_pos : Game :=
  ⟨.White, [((5, 1), ⟨.King, .White⟩), ((8, 1), ⟨.Rook, .White⟩)], .InProgress⟩

/-- C6's position: White to move with a black pawn on d4 (so the capture
occupancy pre-check passes and the pawn arm is reached). -/
def c6_pos : Game := ⟨.White, [((4, 4), ⟨.Pawn, .Black⟩)], .InProgress⟩

/-- The descriptor `Command::parse` produces for the input `xd4`: a pawn
capture with NO source file. -/
def c6_cmd : Command := ⟨none, .Pawn, (none, none), (4, 4), true⟩

/-- C7's position and move for the witness: a lone white king and a pawn
push to a5 with no pawn to make it, which `play` rejects. -/
def c7_pos : Game := ⟨.White, [((1, 1), ⟨.King, .White⟩)], .InProgress⟩

/-- A pawn push to a5 (no White pawn exists, so no origin matches). -/
def c7_cmd : Command := ⟨none, .Pawn, (none, none), (1, 5), false⟩

/-- The board for C10's witness: a White pawn on a2, a White knight
blocking on a3, a4 empty. -/
def c10_board : Board := [((1, 2), ⟨.Pawn, .White⟩), ((1, 3), ⟨.Knight, .White⟩)]

/-! Sanity checks: the embedded geometry and parser agree with the
source's own unit tests. -/

example : abs_diff 3 7 = 4 := by decide

example : next_coords (5, 5) (1, -1) 3 = some (8, 2) := by decide

example : next_coords (5, 5) (1, 0) 4 = none := by decide

example : Command.parse ("Kd4".toList) =
    some ⟨none, .King, (none, none), (4, 4), false⟩ := by decide

example : Command.parse ("Rxa8".toList) =
    some ⟨none, .Rook, (none, none), (1, 8), true⟩ := by decide

example : Command.parse ("a4".toList) =
    some ⟨none, .Pawn, (none, none), (1, 4), false⟩ := by decide

example : Command.parse ("axd4".toList) =
    some ⟨none, .Pawn, (some 1, none), (4, 4), true⟩ := by decide

example : Command.parse ("Rexa8#".toList) =
    some ⟨some .Checkmate, .Rook, (some 5, none), (1, 8), true⟩ := by decide

example : Command.parse ("d4+".toList) =
    some ⟨some .Check, .Pawn, (none, none), (4, 4), false⟩ := by decide

example : Command.parse ("aa4".toList) = none := by decide

example : Command.parse ("Qxd4x".toList) = none := by decide

example : Command.parse ("4a".toList) = none := by decide

example : Command.parse ("a".toList) = none := by decide

example : Command.parse ("N3f7".toList) =
    some ⟨none, .Knight, (none, some 2), (6, 7), false⟩ := by decide

example : Command.parse ("Qed4".toList) = none := by decide

example : Command.parse ("xd4".toList) =
    some ⟨none, .Pawn, (none, none), (4, 4), true⟩ := by decide

/-- C1, counterexample: moving the shielding rook away leaves White's own
king attacked, yet `play` returns `Ok` and modifies the board — there is
no self-check simulation and no `InCheck` error (`ChessError` has only
`InvalidMove`). -/
theorem c1_counterexample :
    Game.play c1_pos c1_cmd = .ok ⟨.Black, c1_pieces, .InProgress⟩ ∧
    is_check_b c1_pieces .White = true ∧
    c1_pieces ≠ c1_pos.pieces := by
  decide

/-- C1 (amended): `play` performs no self-check legality test at all — any
move descriptor that survives the validation phases (castle arm, occupancy
consistency, origin search) is committed and `play` returns `Ok`,
regardless of whether the resulting position leaves the mover's own king
attacked; the only error value is `InvalidMove`. -/
theorem c1_amended_no_self_check_filter (g : Game) (cmd : Command)
    (pairs : List (Coords × Coords)) (ps : Board)
    (hfind : g.find_move cmd = .found pairs)
    (hcommit : commit_pairs pairs g.pieces = some ps) :
    ∃ st, Game.play g cmd = .ok ⟨g.turn.opposite, ps, st⟩ := by
  refine ⟨if is_check_b ps g.turn.opposite then GameState.Check g.turn.opposite
    else g.state, ?_⟩
  unfold Game.play
  rw [hfind]
  dsimp only
  rw [hcommit]

/-- C1, witness for the amended theorem: in the counterexample position the
search finds the rook e2 and the commit succeeds, so `play` returns `Ok`
even though the move exposes White's king. -/
theorem c1_witness :
    ∃ st, Game.play c1_pos c1_cmd = .ok ⟨Color.White.opposite, c1_pieces, st⟩ :=
  c1_amended_no_self_check_filter c1_pos c1_cmd [((5, 2), (1, 2))] c1_pieces
    (by decide) (by decide)

/-- C2, counterexample: after Black's king steps out of check the play call
succeeds and the new side to move (White) is not in check — yet the state
is left at `Check(Black)` instead of being recomputed to `InProgress` (or
`Stalemate`): `play` never resets a stale `Check` and never produces
`Checkmate` or `Stalemate`. -/
theorem c2_counterexample :
    Game.play c2_g0 c2_c1 = .ok c2_g1 ∧
    Game.play c2_g1 c2_c2 = .ok c2_g2 ∧
    is_check_b c2_g2.pieces c2_g2.turn = false ∧
    c2_g2.state = GameState.Check .Black ∧
    c2_g2.state ≠ GameState.InProgress ∧
    c2_g2.state ≠ GameState.Stalemate := by
  decide

/-- C2 (amended): after every successful `play` call the state is
`Check(new side to move)` when that side's king is attacked in the new
position, and otherwise the state is simply left at its previous value —
no checkmate or stalemate detection, and no reset of a stale `Check`, ever
happens. -/
theorem c2_amended_state_update (g : Game) (cmd : Command) (g' : Game)
    (h : Game.play g cmd = .ok g') :
    g'.state =
      (if is_check_b g'.pieces g'.turn then GameState.Check g'.turn else g.state) := by
  unfold Game.play at h
  split at h
  · exact absurd h (by simp)
  · exact absurd h (by simp)
  · split at h
    · exact absurd h (by simp)
    · simp only [PlayResult.ok.injEq] at h
      subst h
      rfl

/-- C2, witness for the amended theorem: the first move of the
counterexample (rook to h8 delivering check) instantiates the amended
state-update rule. -/
theorem c2_witness :
    c2_g1.state =
      (if is_check_b c2_g1.pieces c2_g1.turn then GameState.Check c2_g1.turn
        else c2_g0.state) :=
  c2_amended_state_update c2_g0 c2_c1 c2_g1 (by decide)

/-- C3: `get_all_possible_moves` returns the pinned rook's move to b2, the
move is accepted by `play`, and the resulting position leaves White's own
king attacked — the own-king-in-check filter the claim describes does not
exist (the source carries a todo comment for it). -/
theorem c3_bug_unfiltered_moves :
    c3_cmd ∈ Game.get_all_possible_moves c3_pos .White ∧
    Game.play c3_pos c3_cmd =
      .ok ⟨.Black,
           [((2, 2), ⟨.Rook, .White⟩), ((1, 1), ⟨.King, .White⟩),
            ((1, 8), ⟨.Rook, .Black⟩)], .InProgress⟩ ∧
    is_check_b
        [((2, 2), ⟨.Rook, .White⟩), ((1, 1), ⟨.King, .White⟩),
         ((1, 8), ⟨.Rook, .Black⟩)] .White = true := by
  decide

/-- C4: the slider ray walk records the capture of the black pawn on a3 and
then KEEPS WALKING: the quiet moves a4 through a8, strictly beyond the
first occupied square of the upward direction, are generated as well (the
source lacks the `break` after a capture). -/
theorem c4_bug_ray_continues_past_capture :
    (⟨none, .Rook, (some 1, some 1), (1, 3), true⟩ : Command) ∈
      Piece.get_possible_moves ⟨.Rook, .White⟩ (1, 1) c4_board ∧
    (⟨none, .Rook, (some 1, some 1), (1, 4), false⟩ : Command) ∈
      Piece.get_possible_moves ⟨.Rook, .White⟩ (1, 1) c4_board ∧
    (⟨none, .Rook, (some 1, some 1), (1, 8), false⟩ : Command) ∈
      Piece.get_possible_moves ⟨.Rook, .White⟩ (1, 1) c4_board := by
  decide

/-- C5, counterexample: the castle arm only checks that the two home
squares are occupied — it never inspects the occupants' kind or color, so
White "castles" with two black pawns, which are moved to g1 and f1 and the
call returns `Ok`. -/
theorem c5_counterexample :
    Game.play c5_pos c5_cmd =
      .ok ⟨.Black,
           [((6, 1), ⟨.Pawn, .Black⟩), ((7, 1), ⟨.Pawn, .Black⟩)], .InProgress⟩ ∧
    board_get c5_pos.pieces (5, 1) = some ⟨.Pawn, .Black⟩ ∧
    board_get c5_pos.pieces (8, 1) = some ⟨.Pawn, .Black⟩ := by
  decide

/-- When the castle arm succeeds, the descriptor's piece was King, both
home squares were occupied, both destination squares were empty, and every
column strictly between the king home and the rook home was empty. -/
theorem castle_phase_ok_conditions (color : Color) (pieces : Board)
    (piece : PieceType) (long : Bool) (pairs : List (Coords × Coords))
    (h : castle_phase color pieces piece long = .ok pairs) :
    piece = PieceType.King ∧
    board_get pieces (5, if color = .White then 1 else 8) ≠ none ∧
    board_get pieces ((if long then 1 else 8), if color = .White then 1 else 8) ≠ none ∧
    board_get pieces ((if long then 3 else 7), if color = .White then 1 else 8) = none ∧
    board_get pieces ((if long then 4 else 6), if color = .White then 1 else 8) = none ∧
    ∀ col ∈ (if long then [2, 3, 4] else [6, 7]),
      board_get pieces (col, if color = .White then 1 else 8) = none := by
  cases color <;> cases long <;>
  · unfold castle_phase at h
    simp at h
    split at h
    · rename_i hk
      split at h
      · simp_all
      · rename_i hh
        split at h
        · simp_all
        · rename_i hd
          split at h
          · simp_all
          · rename_i hb
            simp_all
    · simp_all

/-- C5 (amended): a castle descriptor succeeds ONLY IF the descriptor's
piece is King, the king and rook home squares of the side to move are
occupied (by some piece — the occupants' kind and color are NOT verified,
as the counterexample shows), the king/rook destination squares are empty,
and the columns strictly between the king home and the rook home are
empty. -/
theorem c5_amended_castle_preconditions (g : Game) (cmd : Command) (g' : Game)
    (long : Bool)
    (hspec : cmd.special = some (if long then Special.LongCastle else Special.Castle))
    (hok : Game.play g cmd = .ok g') :
    cmd.piece = PieceType.King ∧
    board_get g.pieces (5, if g.turn = .White then 1 else 8) ≠ none ∧
    board_get g.pieces ((if long then 1 else 8), if g.turn = .White then 1 else 8) ≠ none ∧
    board_get g.pieces ((if long then 3 else 7), if g.turn = .White then 1 else 8) = none ∧
    board_get g.pieces ((if long then 4 else 6), if g.turn = .White then 1 else 8) = none ∧
    ∀ col ∈ (if long then [2, 3, 4] else [6, 7]),
      board_get g.pieces (col, if g.turn = .White then 1 else 8) = none := by
  have hcp : ∃ pairs, castle_phase g.turn g.pieces cmd.piece long = .ok pairs := by
    cases long with
    | false =>
        simp only [Bool.false_eq_true, if_false] at hspec
        cases hc : castle_phase g.turn g.pieces cmd.piece false with
        | ok pairs => exact ⟨pairs, rfl⟩
        | error e =>
            exfalso
            have hfm : g.find_move cmd = .invalid := by
              unfold Game.find_move
              rw [hspec]
              dsimp only
              rw [hc]
            unfold Game.play at hok
            rw [hfm] at hok
            exact absurd hok (by simp)
    | true =>
        simp only [if_true] at hspec
        cases hc : castle_phase g.turn g.pieces cmd.piece true with
        | ok pairs => exact ⟨pairs, rfl⟩
        | error e =>
            exfalso
            have hfm : g.find_move cmd = .invalid := by
              unfold Game.find_move
              rw [hspec]
              dsimp only
              rw [hc]
            unfold Game.play at hok
            rw [hfm] at hok
            exact absurd hok (by simp)
  rcases hcp with ⟨pairs, hc⟩
  exact castle_phase_ok_conditions g.turn g.pieces cmd.piece long pairs hc

/-- C5, witness for the amended theorem: a legitimate `O-O` succeeds and
the amended preconditions hold in that position. -/
theorem c5_witness :
    c5_cmd.piece = PieceType.King ∧
    board_get c5_castle_pos.pieces (5, if c5_castle_pos.turn = .White then 1 else 8) ≠ none ∧
    board_get c5_castle_pos.pieces ((if false then 1 else 8),
      if c5_castle_pos.turn = .White then 1 else 8) ≠ none ∧
    board_get c5_castle_pos.pieces ((if false then 3 else 7),
      if c5_castle_pos.turn = .White then 1 else 8) = none ∧
    board_get c5_castle_pos.pieces ((if false then 4 else 6),
      if c5_castle_pos.turn = .White then 1 else 8) = none ∧
    ∀ col ∈ (if false then [2, 3, 4] else [6, 7]),
      board_get c5_castle_pos.pieces (col,
        if c5_castle_pos.turn = .White then 1 else 8) = none :=
  c5_amended_castle_preconditions c5_castle_pos c5_cmd
    ⟨.Black, [((6, 1), ⟨.Rook, .White⟩), ((7, 1), ⟨.King, .White⟩)], .InProgress⟩
    false (by decide) (by decide)

/-- C6: `Command::parse` accepts the input `xd4`, producing a pawn-capture
descriptor carrying no source file; feeding that descriptor to `play`
against an occupied destination reaches `from.0.unwrap()` in the pawn arm
and panics — `play` does not return `Ok` or a typed error there. -/
theorem c6_bug_play_panics_on_parsed_xd4 :
    Command.parse ("xd4".toList) = some c6_cmd ∧
    Game.play c6_pos c6_cmd = .panicked c6_pos := by
  decide

/-- C7: `play` is atomic on failure — whenever it returns an error, the
game value visible at the moment of return (piece map, side to move, and
state) is exactly the input game. All error returns happen during the
validation phases, which never mutate the game (the source pushes only to
the local `to_remove`/`to_insert` vectors); the commit loop and the state
and turn updates run only afterwards. -/
theorem c7_atomic_on_failure (g : Game) (cmd : Command) (e : ChessError)
    (g' : Game) (h : Game.play g cmd = .err e g') : g' = g := by
  unfold Game.play at h
  split at h
  · simp only [PlayResult.err.injEq] at h
    exact h.2.symm
  · exact absurd h (by simp)
  · split at h
    · exact absurd h (by simp)
    · exact absurd h (by simp)

/-- C7, witness: the rejected pawn push leaves the game exactly as it
was. -/
theorem c7_witness :
    Game.play c7_pos c7_cmd = .err .InvalidMove c7_pos ∧ c7_pos = c7_pos :=
  ⟨by decide, c7_atomic_on_failure c7_pos c7_cmd .InvalidMove c7_pos (by decide)⟩

/-- C8: the coordinate codec round-trips — for every square with both
coordinates in `1..=8`, rendering it to two-character notation and parsing
the notation back yields the same square. -/
theorem c8_roundtrip (x y : Nat) (hx1 : 1 ≤ x) (hx8 : x ≤ 8)
    (hy1 : 1 ≤ y) (hy8 : y ≤ 8) :
    chars_to_coords (coords_to_chars (x, y)) = some (x, y) := by
  interval_cases x <;> interval_cases y <;> decide

/-- C8, witness: the round trip at d5. -/
theorem c8_witness : chars_to_coords (coords_to_chars (4, 5)) = some (4, 5) :=
  c8_roundtrip 4 5 (by decide) (by decide) (by decide) (by decide)

/-- C9: whenever `Command::parse` succeeds with a descriptor carrying a
source file or source row, the piece kind is Knight, Rook, or Pawn, and a
Pawn carrying disambiguation also carries the capture flag — the parser's
final filter rejects disambiguation on any other piece kind and on a
non-capturing pawn. -/
theorem c9_disambiguation_filter (l : List Char) (cmd : Command)
    (h : Command.parse l = some cmd)
    (hd : cmd.from'.1.isSome = true ∨ cmd.from'.2.isSome = true) :
    (cmd.piece = PieceType.Knight ∨ cmd.piece = PieceType.Rook ∨
      cmd.piece = PieceType.Pawn) ∧
    (cmd.piece = PieceType.Pawn → cmd.takes = true) := by
  unfold Command.parse at h
  split at h
  · exact absurd h (by simp)
  · split at h
    · simp only [Option.some.injEq] at h
      subst h
      simp at hd
    · split at h
      · simp only [Option.some.injEq] at h
        subst h
        simp at hd
      · split at h
        · rename_i caps hcaps
          unfold build_command at h
          rw [Option.bind_eq_some] at h
          rcases h with ⟨piece, hpc, h⟩
          dsimp only at h
          split at h
          · exact absurd h (by simp)
          · rename_i hcond
            rw [Option.map_eq_some'] at h
            rcases h with ⟨tc, htc, hcmd⟩
            subst hcmd
            dsimp only at hd ⊢
            rw [not_and_or] at hcond
            rcases hcond with hno | hok2
            · exact absurd (Or.symm hd) hno
            · push_neg at hok2
              constructor
              · by_cases h1 : piece = PieceType.Knight
                · exact Or.inl h1
                · by_cases h2 : piece = PieceType.Rook
                  · exact Or.inr (Or.inl h2)
                  · exact Or.inr (Or.inr (hok2.1 h1 h2))
              · intro hpw
                cases htk : caps.takes with
                | true => rfl
                | false => exact absurd hpw (hok2.2 htk)
        · exact absurd h (by simp)

/-- C9, witness: `Nbd2` parses to a knight move with a source file, and
the theorem's conclusion holds for it. -/
theorem c9_witness :
    (Command.parse ("Nbd2".toList) =
      some ⟨none, .Knight, (some 2, none), (4, 2), false⟩) ∧
    ((PieceType.Knight = PieceType.Knight ∨ PieceType.Knight = PieceType.Rook ∨
        PieceType.Knight = PieceType.Pawn) ∧
      (PieceType.Knight = PieceType.Pawn → false = true)) :=
  ⟨by decide,
   c9_disambiguation_filter ("Nbd2".toList)
     ⟨none, .Knight, (some 2, none), (4, 2), false⟩ (by decide) (by decide)⟩

/-- C10: the double pawn push never inspects the intermediate square. On
every board where a pawn of the side to move stands on its home rank (2 for
White, 7 for Black), the square one rank ahead is OCCUPIED (by any piece of
either color), and the square two ranks ahead is empty, the two-step push is
generated by `get_possible_moves`, and `play` on that generated descriptor
succeeds and moves the home-rank pawn over the blocker to the two-ahead
square (the descriptor's source row keeps the blocker from being selected
as the origin). -/
theorem c10_double_push_jumps_blocker (ps : Board) (c : Color) (x : Nat)
    (st : GameState) (blocker : Piece)
    (hpawn : board_get ps (x, if c = .White then 2 else 7) = some ⟨.Pawn, c⟩)
    (hmid : board_get ps (x, if c = .White then 3 else 6) = some blocker)
    (htwo : board_get ps (x, if c = .White then 4 else 5) = none) :
    (⟨none, .Pawn, (some x, some (if c = .White then 2 else 7)),
        (x, if c = .White then 4 else 5), false⟩ : Command) ∈
      Piece.get_possible_moves ⟨.Pawn, c⟩ (x, if c = .White then 2 else 7) ps ∧
    ∃ st', Game.play ⟨c, ps, st⟩
        ⟨none, .Pawn, (some x, some (if c = .White then 2 else 7)),
          (x, if c = .White then 4 else 5), false⟩ =
      .ok ⟨c.opposite,
           board_insert (x, if c = .White then 4 else 5) ⟨.Pawn, c⟩
             (board_remove ps (x, if c = .White then 2 else 7)), st'⟩ := by
  cases c <;> simp only [reduceCtorEq, if_true, if_false] at hpawn hmid htwo ⊢
  case White =>
    refine ⟨?_, ?_⟩
    · simp [Piece.get_possible_moves, pawn_step_moves, pawn_move, htwo, hmid]
    · have hfm : Game.find_move ⟨.White, ps, st⟩
          ⟨none, .Pawn, (some x, some 2), (x, 4), false⟩ = .found [((x, 2), (x, 4))] := by
        unfold Game.find_move
        dsimp only
        rw [htwo]
        dsimp only
        simp only [dispatch, pawn_diff, checked_sub]
        norm_num
        simp [search_cands, hmid, hpawn, coords_match_from]
      refine ⟨if is_check_b (board_insert (x, 4) ⟨.Pawn, .White⟩
          (board_remove ps (x, 2))) Color.White.opposite
        then GameState.Check Color.White.opposite else st, ?_⟩
      unfold Game.play
      rw [hfm]
      dsimp only
      simp only [commit_pairs, hpawn]
  case Black =>
    refine ⟨?_, ?_⟩
    · simp [Piece.get_possible_moves, pawn_step_moves, pawn_move, htwo, hmid]
    · have hfm : Game.find_move ⟨.Black, ps, st⟩
          ⟨none, .Pawn, (some x, some 7), (x, 5), false⟩ = .found [((x, 7), (x, 5))] := by
        unfold Game.find_move
        dsimp only
        rw [htwo]
        dsimp only
        simp only [dispatch, pawn_diff, checked_sub]
        norm_num
        simp [search_cands, hmid, hpawn, coords_match_from]
      refine ⟨if is_check_b (board_insert (x, 5) ⟨.Pawn, .Black⟩
          (board_remove ps (x, 7))) Color.Black.opposite
        then GameState.Check Color.Black.opposite else st, ?_⟩
      unfold Game.play
      rw [hfm]
      dsimp only
      simp only [commit_pairs, hpawn]

/-- C10, witness: on the concrete board the double push a2–a4 is generated
and accepted, jumping over the knight on a3. -/
theorem c10_witness :
    (⟨none, .Pawn, (some 1, some (if Color.White = .White then 2 else 7)),
        (1, if Color.White = .White then 4 else 5), false⟩ : Command) ∈
      Piece.get_possible_moves ⟨.Pawn, .White⟩
        (1, if Color.White = .White then 2 else 7) c10_board ∧
    ∃ st', Game.play ⟨.White, c10_board, .InProgress⟩
        ⟨none, .Pawn, (some 1, some (if Color.White = .White then 2 else 7)),
          (1, if Color.White = .White then 4 else 5), false⟩ =
      .ok ⟨Color.White.opposite,
           board_insert (1, if Color.White = .White then 4 else 5) ⟨.Pawn, .White⟩
             (board_remove c10_board (1, if Color.White = .White then 2 else 7)), st'⟩ :=
  c10_double_push_jumps_blocker c10_board .White 1 .InProgress ⟨.Knight, .White⟩
    (by decide) (by decide) (by decide)
